import Mathlib

/-!
Verification development for the job-orchestration core of the
nextflow-pipeline-platform backend.

The definitions below are a shallow embedding of the Python source:
  * `backend/db/models.py`                       (data model)
  * `backend/app/services/pipeline_service.py`   (run_pipeline, get_pipeline_status, cancel_pipeline)
  * `backend/app/routers/pipeline_router.py`     (submit_pipeline_job, get_pipeline_job,
                                                  cancel_pipeline_job, list_pipeline_jobs,
                                                  PipelineSubmission.validate_params)

Modelling conventions:
  * UUIDs are modelled as `Nat`, timestamps (`datetime`) as `Nat` clock readings
    passed explicitly to each operation that reads the clock.
  * JSON values (the `params` JSON column and Python objects produced by
    `json.loads`) are modelled by the inductive type `JValue`.
  * Python's `json.loads` is an external library call; it is modelled as an
    explicit parameter `loads : String → Option JValue` (`none` = raised
    `JSONDecodeError`).
  * The SQLAlchemy session is modelled as an explicit `DB` state: a list of
    pipelines and a list of jobs in table (insertion) order.  `select(...).first()`
    is `List.find?`; `select` without `order_by` returns table order;
    `.offset(o).limit(l)` is `List.drop o` followed by `List.take l`;
    a committed insert appends; the primary-key constraint on `jobs.id`
    (models.py line 50) makes a duplicate-id commit raise `IntegrityError`,
    which the service's `except Exception` turns into an HTTP 500 with no row
    persisted.
  * Every operation also reports the list of Executor Gateway invocations
    (launch / query / cancel of the external engine) it performed.  The code
    under `src/` runs in simulation mode and never invokes an external
    executor, so every branch reports `[]`.
-/

/-- A JSON value: the model of the `params` JSON column and of Python objects
returned by `json.loads`.  Objects are association lists in key order. -/
inductive JValue where
  | jnull : JValue
  | jbool : Bool → JValue
  | jnum : Int → JValue
  | jstr : String → JValue
  | jarr : List JValue → JValue
  | jobj : List (String × JValue) → JValue
deriving Repr

/-- A Python value arriving at `PipelineSubmission.validate_params` (pre=True,
so the raw request field before pydantic coercion): `None`, a string, a dict
(with JSON-shaped values), or any other Python object. -/
inductive PyValue where
  | pynone : PyValue
  | pystr : String → PyValue
  | pydict : List (String × JValue) → PyValue
  | pyother : PyValue
deriving Repr

/-- Python's `str.strip()`: drop whitespace from both ends. -/
def pyStrip (s : String) : String :=
  String.mk (((s.data.dropWhile Char.isWhitespace).reverse.dropWhile
    Char.isWhitespace).reverse)

/-- `PipelineSubmission.validate_params` (pipeline_router.py lines 87-111):
`None` becomes `{}`; a string is stripped — blank becomes `{}`, otherwise it is
given to `json.loads`, whose result is returned as-is and whose failure is
swallowed into `{}`; a dict passes through; any other type becomes `{}`. -/
def validate_params (loads : String → Option JValue) : PyValue → JValue
  | .pynone => .jobj []
  | .pystr s =>
      if pyStrip s = "" then .jobj []
      else
        match loads s with
        | some j => j
        | none => .jobj []
  | .pydict d => .jobj d
  | .pyother => .jobj []

/-- `User` (models.py): id plus role string (default "user"). -/
structure User where
  id : Nat
  role : String
deriving Repr, DecidableEq

/-- `Pipeline` (models.py). -/
structure Pipeline where
  id : Nat
  name : String
  description : String
deriving Repr, DecidableEq

/-- `Job` row (models.py lines 48-64).  `created_at`/`updated_at` have
`utcnow` defaults so they are always populated; the remaining timestamp and
text columns are nullable. -/
structure Job where
  id : String
  user_id : Nat
  pipeline_id : Nat
  status : String
  params : JValue
  message : Option String
  created_at : Nat
  updated_at : Nat
  external_id : Option String
  work_dir : Option String
  output_dir : Option String
  started_at : Option Nat
  completed_at : Option Nat
  description : Option String
deriving Repr

/-- The database state: the `pipelines` and `jobs` tables in insertion order. -/
structure DB where
  pipelines : List Pipeline
  jobs : List Job
deriving Repr

/-- An invocation of the external executor (Executor Gateway).  The simulation
code never performs one. -/
inductive ExtCall where
  | launch : ExtCall
  | query : ExtCall
  | cancelRun : ExtCall
deriving Repr, DecidableEq

/-- Error responses raised via `HTTPException`: 404, 403, 500. -/
inductive ApiError where
  | notFound : String → ApiError
  | forbidden : String → ApiError
  | serverError : String → ApiError
deriving Repr, DecidableEq

/-- Result of one HTTP-level operation: the response (or error), the database
state after the request, and the Executor Gateway invocations performed. -/
structure OpOut (α : Type) where
  res : Except ApiError α
  db : DB
  calls : List ExtCall
deriving Repr

/-- Terminal statuses: `status in ["COMPLETED", "FAILED", "CANCELLED"]`. -/
def isTerminal (s : String) : Bool :=
  s == "COMPLETED" || s == "FAILED" || s == "CANCELLED"

/-- `S3_BUCKET` (pipeline_service.py line 21). -/
def S3_BUCKET : String := "nextflow-pipeline-data-nto15x4w"

/-- Model of `user_id.hex[:6]`: a 6-hex-digit (24-bit) truncation of the user
id, so distinct users may share a tag. -/
def userIdTag (uid : Nat) : String := toString (uid % 16777216)

/-- `job_id = f"job-{datetime.now().strftime('%Y%m%d%H%M%S')}-{user_id.hex[:6]}"`
(pipeline_service.py line 50): second-resolution timestamp plus truncated
user id. -/
def genJobId (nowT : Nat) (uid : Nat) : String :=
  "job-" ++ toString nowT ++ "-" ++ userIdTag uid

/-- The metadata dictionary returned by `run_pipeline` on success
(pipeline_service.py lines 88-100).  Its `started_at` is
`datetime.now().isoformat()` — a response field only; the stored Job row's
`started_at` column is not assigned. -/
structure RunMeta where
  job_id : String
  pipeline_id : Nat
  pipeline_name : String
  user_id : Nat
  status : String
  work_dir : String
  output_dir : String
  started_at : Nat
  params : JValue
  description : Option String
  message : String
deriving Repr

/-- `work_dir = f"s3://{S3_BUCKET}/work/{job_id}"` (pipeline_service.py line 51). -/
def workDirOf (job_id : String) : String :=
  "s3://" ++ S3_BUCKET ++ "/work/" ++ job_id

/-- `output_dir = f"s3://{S3_BUCKET}/results/{job_id}"` (pipeline_service.py line 52). -/
def outputDirOf (job_id : String) : String :=
  "s3://" ++ S3_BUCKET ++ "/results/" ++ job_id

/-- The Job row inserted by `run_pipeline` (pipeline_service.py lines 70-79):
only the fields passed to the `Job(...)` constructor plus the column defaults;
`external_id`, `started_at` and `completed_at` are left NULL. -/
def newJobRow (nowT : Nat) (pipeline_id : Nat) (user_id : Nat) (params : JValue)
    (description : Option String) : Job :=
  { id := genJobId nowT user_id, user_id := user_id, pipeline_id := pipeline_id,
    status := "SUBMITTED", params := params, message := none,
    created_at := nowT, updated_at := nowT, external_id := none,
    work_dir := some (workDirOf (genJobId nowT user_id)),
    output_dir := some (outputDirOf (genJobId nowT user_id)),
    started_at := none, completed_at := none, description := description }

/-- `pipeline_service.run_pipeline` (pipeline_service.py lines 27-111).
The pipeline lookup precedes the `try` block, so its 404 propagates; inside
the `try`, a duplicate-primary-key commit (`IntegrityError`) and the
non-simulation `NotImplementedError` are both re-raised as HTTP 500 with the
session unchanged.  On success the new row is committed (appended). -/
def run_pipeline (nowT : Nat) (pipeline_id : Nat) (user_id : Nat) (params : JValue)
    (db : DB) (simulation_mode : Bool) (description : Option String) : OpOut RunMeta :=
  match db.pipelines.find? (fun p => p.id == pipeline_id) with
  | none =>
      ⟨.error (.notFound ("Pipeline with ID " ++ toString pipeline_id ++ " not found")), db, []⟩
  | some pipeline =>
      if simulation_mode then
        if db.jobs.any (fun j => j.id == genJobId nowT user_id) then
          ⟨.error (.serverError "Failed to start pipeline: duplicate job id"), db, []⟩
        else
          ⟨.ok { job_id := genJobId nowT user_id, pipeline_id := pipeline_id,
                 pipeline_name := pipeline.name, user_id := user_id,
                 status := "SUBMITTED", work_dir := workDirOf (genJobId nowT user_id),
                 output_dir := outputDirOf (genJobId nowT user_id),
                 started_at := nowT, params := params,
                 description := description,
                 message := "Job submitted successfully and is queued for processing" },
           { db with jobs := db.jobs ++ [newJobRow nowT pipeline_id user_id params description] },
           []⟩
      else
        ⟨.error (.serverError "Failed to start pipeline: not implemented"), db, []⟩

/-- Full HTTP job response (router `JobResponse` model). -/
structure JobResponse where
  id : String
  job_id : String
  user_id : Nat
  pipeline_id : Nat
  pipeline_name : String
  status : String
  message : Option String
  created_at : Nat
  updated_at : Nat
  external_id : Option String
  started_at : Option Nat
  completed_at : Option Nat
  work_dir : Option String
  output_dir : Option String
  params : JValue
  description : Option String
deriving Repr

/-- The inline params expression of the submit response (router lines 190-191):
a dict passes through; a non-empty string goes through an unguarded
`json.loads` whose failure (`none`) propagates as an exception; an empty
string or any other type becomes `{}`. -/
def submitRespParams (loads : String → Option JValue) : JValue → Option JValue
  | .jobj d => some (.jobj d)
  | .jstr s => if s = "" then some (.jobj []) else loads s
  | _ => some (.jobj [])

/-- `submit_pipeline_job` (pipeline_router.py lines 134-199).  The handler
verifies the pipeline exists (404 otherwise) before the `try` block; inside
the `try`, any exception — including `HTTPException`s raised by
`run_pipeline`, the job-refetch failure, and a `json.loads` failure while
building the response — is re-raised as HTTP 500.  The session state produced
by `run_pipeline` (a committed row on success) survives such a late 500. -/
def submit_pipeline_job (loads : String → Option JValue) (nowT : Nat)
    (pipeline_id : Nat) (params : JValue) (description : Option String)
    (current_user : User) (db : DB) : OpOut JobResponse :=
  match db.pipelines.find? (fun p => p.id == pipeline_id) with
  | none =>
      ⟨.error (.notFound ("Pipeline with ID " ++ toString pipeline_id ++ " not found")), db, []⟩
  | some pipeline =>
      match run_pipeline nowT pipeline.id current_user.id params db true description with
      | ⟨.error _, db1, calls⟩ =>
          ⟨.error (.serverError "Failed to submit pipeline job"), db1, calls⟩
      | ⟨.ok meta, db1, calls⟩ =>
          match db1.jobs.find? (fun j => j.id == meta.job_id) with
          | none =>
              ⟨.error (.serverError "Failed to submit pipeline job: job not retrieved"), db1, calls⟩
          | some job =>
              match submitRespParams loads job.params with
              | none =>
                  ⟨.error (.serverError "Failed to submit pipeline job: bad params"), db1, calls⟩
              | some ps =>
                  ⟨.ok { id := job.id, job_id := job.id, user_id := job.user_id,
                         pipeline_id := job.pipeline_id, pipeline_name := pipeline.name,
                         status := job.status, message := some meta.message,
                         created_at := job.created_at, updated_at := job.updated_at,
                         external_id := job.external_id, started_at := job.started_at,
                         completed_at := job.completed_at, work_dir := job.work_dir,
                         output_dir := job.output_dir, params := ps,
                         description := job.description }, db1, calls⟩

/-- The defensive params normalisation shared by the get and list handlers
(router lines 240-251 and 346-358): a falsy value (`None`, `{}`, `""`) and any
non-dict non-string value become `{}`; a dict passes through; a non-empty
string goes through `json.loads` with failures swallowed into `{}`. -/
def params_data (loads : String → Option JValue) : JValue → JValue
  | .jobj d => .jobj d
  | .jstr s =>
      if s = "" then .jobj []
      else
        match loads s with
        | some j => j
        | none => .jobj []
  | _ => .jobj []

/-- `get_pipeline_job` (pipeline_router.py lines 202-272): load the job (404),
authorize (403 unless owner or admin), load the pipeline (404), and return the
stored record unchanged.  No update and no executor contact happen. -/
def get_pipeline_job (loads : String → Option JValue) (job_id : String)
    (current_user : User) (db : DB) : OpOut JobResponse :=
  match db.jobs.find? (fun j => j.id == job_id) with
  | none =>
      ⟨.error (.notFound ("Job with ID " ++ job_id ++ " not found")), db, []⟩
  | some job =>
      if !(job.user_id == current_user.id) && !(current_user.role == "admin") then
        ⟨.error (.forbidden "Not authorized to access this job"), db, []⟩
      else
        match db.pipelines.find? (fun p => p.id == job.pipeline_id) with
        | none =>
            ⟨.error (.notFound ("Pipeline with ID " ++ toString job.pipeline_id ++ " not found")), db, []⟩
        | some pipeline =>
            ⟨.ok { id := job.id, job_id := job.id, user_id := job.user_id,
                   pipeline_id := job.pipeline_id, pipeline_name := pipeline.name,
                   status := job.status, message := job.message,
                   created_at := job.created_at, updated_at := job.updated_at,
                   external_id := job.external_id, started_at := job.started_at,
                   completed_at := job.completed_at, work_dir := job.work_dir,
                   output_dir := job.output_dir,
                   params := params_data loads job.params,
                   description := job.description }, db, []⟩

/-- The status dictionary built by `get_pipeline_status`
(pipeline_service.py lines 148-159): `started_at` echoes `created_at`, and
`completed_at` echoes `updated_at` exactly when the stored status is
terminal. -/
structure StatusResp where
  job_id : String
  pipeline_id : String
  pipeline_name : String
  user_id : String
  status : String
  started_at : Option Nat
  completed_at : Option Nat
  params : JValue
  work_dir : Option String
  output_dir : Option String
deriving Repr

/-- Outcome of `get_pipeline_status`: either the
`{"status": "ERROR", "error": "Associated pipeline not found"}` dictionary or
the status dictionary. -/
inductive StatusOut where
  | pipelineMissing : StatusOut
  | info : StatusResp → StatusOut
deriving Repr

/-- `pipeline_service.get_pipeline_status` (pipeline_service.py lines 114-159):
look up the job (404 if absent) and its pipeline, then return the *stored*
status.  In simulation no external status check is performed and nothing is
written back. -/
def get_pipeline_status (job_id : String) (db : DB) : OpOut StatusOut :=
  match db.jobs.find? (fun j => j.id == job_id) with
  | none =>
      ⟨.error (.notFound ("Job with ID " ++ job_id ++ " not found")), db, []⟩
  | some job =>
      match db.pipelines.find? (fun p => p.id == job.pipeline_id) with
      | none => ⟨.ok .pipelineMissing, db, []⟩
      | some pipeline =>
          ⟨.ok (.info { job_id := job.id, pipeline_id := toString job.pipeline_id,
                        pipeline_name := pipeline.name, user_id := toString job.user_id,
                        status := job.status, started_at := some job.created_at,
                        completed_at :=
                          if isTerminal job.status then some job.updated_at else none,
                        params := job.params, work_dir := job.work_dir,
                        output_dir := job.output_dir }), db, []⟩

/-- The `{"status": ..., "message": ...}` dictionary returned by cancellation. -/
structure CancelResp where
  status : String
  message : String
deriving Repr, DecidableEq

/-- The row update committed by `cancel_pipeline` on the targeted job:
`job.status = "CANCELLED"` plus the `onupdate=utcnow` refresh of
`updated_at`.  No other column — in particular not `completed_at` — is
written. -/
def cancelUpd (nowT : Nat) (job_id : String) (j : Job) : Job :=
  if j.id == job_id then { j with status := "CANCELLED", updated_at := nowT } else j

/-- `pipeline_service.cancel_pipeline` (pipeline_service.py lines 162-198):
look up the job (404); a terminal job is reported back unchanged as a
success; otherwise `job.status = "CANCELLED"` is committed (with the
`onupdate=utcnow` refresh of `updated_at`).  `completed_at` is not written. -/
def cancel_pipeline (nowT : Nat) (job_id : String) (db : DB) : OpOut CancelResp :=
  match db.jobs.find? (fun j => j.id == job_id) with
  | none =>
      ⟨.error (.notFound ("Job with ID " ++ job_id ++ " not found")), db, []⟩
  | some job =>
      if isTerminal job.status then
        ⟨.ok { status := job.status,
               message := "Job already in terminal state: " ++ job.status }, db, []⟩
      else
        ⟨.ok { status := "CANCELLED", message := "Job cancelled successfully" },
         { db with jobs := db.jobs.map (cancelUpd nowT job_id) }, []⟩

/-- `cancel_pipeline_job` (pipeline_router.py lines 275-311): load the job
(404), authorize (403 unless owner or admin), report a terminal job back as a
success without touching it, otherwise delegate to
`pipeline_service.cancel_pipeline`. -/
def cancel_pipeline_job (nowT : Nat) (job_id : String) (current_user : User)
    (db : DB) : OpOut CancelResp :=
  match db.jobs.find? (fun j => j.id == job_id) with
  | none =>
      ⟨.error (.notFound ("Job with ID " ++ job_id ++ " not found")), db, []⟩
  | some job =>
      if !(job.user_id == current_user.id) && !(current_user.role == "admin") then
        ⟨.error (.forbidden "Not authorized to cancel this job"), db, []⟩
      else if isTerminal job.status then
        ⟨.ok { status := job.status,
               message := "Job is already in terminal state: " ++ job.status }, db, []⟩
      else
        cancel_pipeline nowT job_id db

/-- The `pipelines.get(job.pipeline_id)` lookup with its "Unknown Pipeline"
fallback (router lines 343-344); pipeline ids are primary keys, so first
match is the match. -/
def pipelineName (db : DB) (pid : Nat) : String :=
  match db.pipelines.find? (fun p => p.id == pid) with
  | some p => p.name
  | none => "Unknown Pipeline"

/-- The per-job response construction of the list handler
(router lines 342-378). -/
def jobToResponse (loads : String → Option JValue) (db : DB) (job : Job) : JobResponse :=
  { id := job.id, job_id := job.id, user_id := job.user_id,
    pipeline_id := job.pipeline_id, pipeline_name := pipelineName db job.pipeline_id,
    status := job.status, message := job.message, created_at := job.created_at,
    updated_at := job.updated_at, external_id := job.external_id,
    started_at := job.started_at, completed_at := job.completed_at,
    work_dir := job.work_dir, output_dir := job.output_dir,
    params := params_data loads job.params, description := job.description }

/-- Result of the list handler (it always succeeds). -/
structure ListOut where
  jobs : List JobResponse
  db : DB
  calls : List ExtCall
deriving Repr

/-- `list_pipeline_jobs` (pipeline_router.py lines 314-380): admins select
all jobs, others only their own; the select carries no `order_by`, so rows
come back in table order, then `offset`/`limit` slice them. -/
def list_pipeline_jobs (loads : String → Option JValue) (offset limit : Nat)
    (current_user : User) (db : DB) : ListOut :=
  let selected :=
    if current_user.role == "admin" then (db.jobs.drop offset).take limit
    else ((db.jobs.filter (fun j => j.user_id == current_user.id)).drop offset).take limit
  ⟨selected.map (jobToResponse loads db), db, []⟩

/-- One orchestrator request at the HTTP boundary: Submit, GetStatus or
Cancel, with the requester and the clock reading. -/
inductive Op where
  | submitOp : Nat → User → Nat → JValue → Option String → Op
  | getStatusOp : User → String → Op
  | cancelOp : Nat → User → String → Op

/-- The database state after serving one request. -/
def step (loads : String → Option JValue) (db : DB) : Op → DB
  | .submitOp t u pid ps d => (submit_pipeline_job loads t pid ps d u db).db
  | .getStatusOp u jid => (get_pipeline_job loads jid u db).db
  | .cancelOp t u jid => (cancel_pipeline_job t jid u db).db

/-- The database state after serving a sequence of requests. -/
def runOps (loads : String → Option JValue) (db : DB) (ops : List Op) : DB :=
  ops.foldl (step loads) db

/-- The job ids present in the store. -/
def idsOf (db : DB) : List String := db.jobs.map (fun j => j.id)

/-- The canonical status vocabulary of the spec. -/
def canonicalStatuses : List String :=
  ["SUBMITTED", "RUNNING", "COMPLETED", "FAILED", "CANCELLED"]

/-- Well-formed store: canonical statuses and primary-key-unique job ids. -/
def WF (db : DB) : Prop :=
  (∀ j ∈ db.jobs, j.status ∈ canonicalStatuses) ∧ (idsOf db).Nodup

/-- The transition edges literally named by the claim:
SUBMITTED → RUNNING → each terminal status. -/
def specEdge (s t : String) : Bool :=
  (s == "SUBMITTED" && t == "RUNNING") ||
  (s == "RUNNING" && (t == "COMPLETED" || t == "FAILED" || t == "CANCELLED"))

/-- The spec edges extended with the direct cancellation edge
SUBMITTED → CANCELLED that the code also takes. -/
def amendedEdge (s t : String) : Bool :=
  specEdge s t || (s == "SUBMITTED" && t == "CANCELLED")

/-- Whether an operation outcome is the 403 Forbidden denial. -/
def isForbiddenErr {α : Type} : Except ApiError α → Bool
  | .error (.forbidden _) => true
  | _ => false

/-- A concrete stand-in for `json.loads` used in concrete scenarios: it
parses the two literals the scenarios mention and fails on everything else
(as `json.loads` does on non-JSON text). -/
def exLoads : String → Option JValue
  | "[1, 2]" => some (.jarr [.jnum 1, .jnum 2])
  | "\x7b\x7d" => some (.jobj [])
  | _ => none

/-- A regular user. -/
def exUser : User := { id := 1, role := "user" }

/-- A second regular user, not the owner of any example job. -/
def exUser2 : User := { id := 2, role := "user" }

/-- An administrator. -/
def exAdmin : User := { id := 3, role := "admin" }

/-- An example pipeline row. -/
def exPipeline : Pipeline := { id := 1, name := "rnaseq", description := "RNA-seq" }

/-- A store holding one pipeline and no jobs. -/
def exDB : DB := { pipelines := [exPipeline], jobs := [] }

/-- A completely empty store. -/
def exEmptyDB : DB := { pipelines := [], jobs := [] }

/-- The store after one submission: pipeline 1 and the job "job-1-1". -/
def exDB1 : DB := (submit_pipeline_job exLoads 1 1 (.jobj []) none exUser exDB).db

/-- The store after two submissions at clock readings 1 and 2. -/
def exDBTwo : DB :=
  (submit_pipeline_job exLoads 2 1 (.jobj []) none exUser exDB1).db

/-- Checks that a list of numbers is in descending (non-increasing) order. -/
def isDescending : List Nat → Bool
  | [] => true
  | [_] => true
  | a :: b :: rest => (decide (b ≤ a)) && isDescending (b :: rest)

/-- The job row created by the first example submission. -/
def exJob1 : Job :=
  { id := "job-1-1", user_id := 1, pipeline_id := 1, status := "SUBMITTED",
    params := .jobj [], message := none, created_at := 1, updated_at := 1,
    external_id := none,
    work_dir := some "s3://nextflow-pipeline-data-nto15x4w/work/job-1-1",
    output_dir := some "s3://nextflow-pipeline-data-nto15x4w/results/job-1-1",
    started_at := none, completed_at := none, description := none }

/-- The HTTP response of the first example submission. -/
def exResp1 : JobResponse :=
  { id := "job-1-1", job_id := "job-1-1", user_id := 1, pipeline_id := 1,
    pipeline_name := "rnaseq", status := "SUBMITTED",
    message := some "Job submitted successfully and is queued for processing",
    created_at := 1, updated_at := 1, external_id := none, started_at := none,
    completed_at := none,
    work_dir := some "s3://nextflow-pipeline-data-nto15x4w/work/job-1-1",
    output_dir := some "s3://nextflow-pipeline-data-nto15x4w/results/job-1-1",
    params := .jobj [], description := none }

/-- The HTTP response of the second example submission (clock reading 2). -/
def exResp2 : JobResponse :=
  { id := "job-2-1", job_id := "job-2-1", user_id := 1, pipeline_id := 1,
    pipeline_name := "rnaseq", status := "SUBMITTED",
    message := some "Job submitted successfully and is queued for processing",
    created_at := 2, updated_at := 2, external_id := none, started_at := none,
    completed_at := none,
    work_dir := some "s3://nextflow-pipeline-data-nto15x4w/work/job-2-1",
    output_dir := some "s3://nextflow-pipeline-data-nto15x4w/results/job-2-1",
    params := .jobj [], description := none }

/-- C1: `Submit` with a `workflow_id` that refers to no existing pipeline
returns NotFound and leaves the store unchanged: no Job record is created. -/
theorem submit_missing_workflow_notFound (loads : String → Option JValue)
    (nowT wid : Nat) (ps : JValue) (d : Option String) (u : User) (db : DB)
    (h : db.pipelines.find? (fun p => p.id == wid) = none) :
    (∃ m, (submit_pipeline_job loads nowT wid ps d u db).res = .error (.notFound m)) ∧
    (submit_pipeline_job loads nowT wid ps d u db).db = db := by
  unfold submit_pipeline_job
  rw [h]
  exact ⟨⟨_, rfl⟩, rfl⟩

/-- Witness for C1: submitting against an empty pipeline table. -/
theorem submit_missing_workflow_notFound_witness :
    (∃ m, (submit_pipeline_job exLoads 5 99 (.jobj []) none exUser exEmptyDB).res
        = .error (.notFound m)) ∧
    (submit_pipeline_job exLoads 5 99 (.jobj []) none exUser exEmptyDB).db = exEmptyDB :=
  submit_missing_workflow_notFound exLoads 5 99 (.jobj []) none exUser exEmptyDB rfl

/-- C10 counterexample: the valid JSON string "[1, 2]" is not passed through
as given — `validate_params` replaces it by its parsed JSON value, which is
neither the given string nor the empty mapping. -/
theorem validate_params_string_not_as_given :
    validate_params exLoads (.pystr "[1, 2]") = .jarr [.jnum 1, .jnum 2] ∧
    validate_params exLoads (.pystr "[1, 2]") ≠ .jstr "[1, 2]" ∧
    validate_params exLoads (.pystr "[1, 2]") ≠ .jobj [] := by
  refine ⟨rfl, fun h => ?_, fun h => ?_⟩ <;> rw [show validate_params exLoads (.pystr "[1, 2]")
      = .jarr [.jnum 1, .jnum 2] from rfl] at h <;> exact JValue.noConfusion h

/-- C10 (amended): a mapping passes through as given; a non-blank string that
parses as JSON is replaced by its parsed value; a blank or invalid-JSON
string, None, and every non-string non-mapping value are silently replaced by
the empty mapping, so submission proceeds. -/
theorem validate_params_classification (loads : String → Option JValue) :
    (∀ d, validate_params loads (.pydict d) = .jobj d) ∧
    (∀ s j, pyStrip s ≠ "" → loads s = some j → validate_params loads (.pystr s) = j) ∧
    (∀ s, pyStrip s = "" ∨ loads s = none → validate_params loads (.pystr s) = .jobj []) ∧
    validate_params loads .pynone = .jobj [] ∧
    validate_params loads .pyother = .jobj [] := by
  refine ⟨fun d => rfl, ?_, ?_, rfl, rfl⟩
  · intro s j hs hl
    simp [validate_params, hs, hl]
  · intro s hs
    rcases hs with hs | hs
    · simp [validate_params, hs]
    · by_cases ht : pyStrip s = "" <;> simp [validate_params, ht, hs]

/-- Witness for the amended C10: a parsed JSON string and a swallowed
invalid-JSON string. -/
theorem validate_params_classification_witness :
    validate_params exLoads (.pystr "[1, 2]") = .jarr [.jnum 1, .jnum 2] ∧
    validate_params exLoads (.pystr "not json") = .jobj [] :=
  ⟨(validate_params_classification exLoads).2.1 "[1, 2]" (.jarr [.jnum 1, .jnum 2])
      (by decide) rfl,
   (validate_params_classification exLoads).2.2.1 "not json" (Or.inr rfl)⟩

/-- C7: a non-privileged requester's List only ever returns jobs whose owner
is the requester; an admin's List ranges over all jobs (it is a slice of the
full job table). -/
theorem list_jobs_owner_scoping (loads : String → Option JValue)
    (off lim : Nat) (u : User) (db : DB) :
    (u.role ≠ "admin" →
      ∀ r ∈ (list_pipeline_jobs loads off lim u db).jobs, r.user_id = u.id) ∧
    (u.role = "admin" →
      (list_pipeline_jobs loads off lim u db).jobs
        = ((db.jobs.drop off).take lim).map (jobToResponse loads db)) := by
  constructor
  · intro hrole r hr
    have hb : (u.role == "admin") = false := beq_eq_false_iff_ne.mpr hrole
    unfold list_pipeline_jobs at hr
    simp only [hb, Bool.false_eq_true, if_false] at hr
    rcases List.mem_map.mp hr with ⟨j, hj, rfl⟩
    have hj' : j ∈ db.jobs.filter (fun j => j.user_id == u.id) :=
      List.drop_subset _ _ (List.take_subset _ _ hj)
    have := List.of_mem_filter hj'
    simpa [jobToResponse] using this
  · intro hrole
    unfold list_pipeline_jobs
    simp [hrole]

/-- Witness for C7: a non-admin's listing over a two-job store owned by them. -/
theorem list_jobs_owner_scoping_witness :
    ∀ r ∈ (list_pipeline_jobs exLoads 0 100 exUser exDB1).jobs, r.user_id = exUser.id :=
  (list_jobs_owner_scoping exLoads 0 100 exUser exDB1).1 (by decide)

/-- C8 (amended): List returns the deterministic slice (drop `offset`, take
`limit`) of the job table in table (insertion) order — filtered to the
requester's jobs unless the requester is an admin — with no `created_at`
ordering applied. -/
theorem list_jobs_is_slice_of_table_order (loads : String → Option JValue)
    (off lim : Nat) (u : User) (db : DB) :
    (list_pipeline_jobs loads off lim u db).jobs
      = ((((if u.role = "admin" then db.jobs
            else db.jobs.filter (fun j => j.user_id == u.id)).drop off).take lim).map
          (jobToResponse loads db)) := by
  unfold list_pipeline_jobs
  by_cases hrole : u.role = "admin" <;> simp [hrole]

/-- C8 counterexample: after two submissions (clock readings 1 then 2) the
admin listing comes back in ascending `created_at` order, not descending. -/
theorem list_jobs_not_created_at_descending :
    ((list_pipeline_jobs exLoads 0 100 exAdmin exDBTwo).jobs.map (fun r => r.created_at))
        = [1, 2] ∧
    isDescending ((list_pipeline_jobs exLoads 0 100 exAdmin exDBTwo).jobs.map
        (fun r => r.created_at)) = false :=
  ⟨rfl, rfl⟩

/-- C3 (amended): `GetStatus` performs no reconciliation: it leaves the store
unchanged, performs no Executor Gateway invocation, and reports the stored
status back; the response's `completed_at` is derived on the fly as
`updated_at` exactly when the stored status is terminal (the column itself is
not written). -/
theorem get_status_returns_stored_without_gateway (jid : String) (db : DB) :
    (get_pipeline_status jid db).db = db ∧
    (get_pipeline_status jid db).calls = [] ∧
    (∀ j p, db.jobs.find? (fun x => x.id == jid) = some j →
       db.pipelines.find? (fun x => x.id == j.pipeline_id) = some p →
       (get_pipeline_status jid db).res = .ok (.info
         { job_id := j.id, pipeline_id := toString j.pipeline_id,
           pipeline_name := p.name, user_id := toString j.user_id,
           status := j.status, started_at := some j.created_at,
           completed_at := if isTerminal j.status then some j.updated_at else none,
           params := j.params, work_dir := j.work_dir, output_dir := j.output_dir })) := by
  refine ⟨?_, ?_, ?_⟩
  · unfold get_pipeline_status
    split
    · rfl
    · split <;> rfl
  · unfold get_pipeline_status
    split
    · rfl
    · split <;> rfl
  · intro j p hj hp
    simp only [get_pipeline_status, hj, hp]

/-- C3 counterexample: a stored job that is non-terminal (SUBMITTED) for which
`GetStatus` contacts no Executor Gateway, performs no update, and simply
echoes the stored status. -/
theorem get_status_nonterminal_no_reconciliation :
    isTerminal "SUBMITTED" = false ∧
    (exDB1.jobs.map (fun j => j.status)) = ["SUBMITTED"] ∧
    (get_pipeline_status "job-1-1" exDB1).calls = [] ∧
    (get_pipeline_status "job-1-1" exDB1).db = exDB1 ∧
    (∃ s, (get_pipeline_status "job-1-1" exDB1).res = .ok (.info s) ∧
      s.status = "SUBMITTED") :=
  ⟨rfl, rfl, rfl, rfl, ⟨_, rfl, rfl⟩⟩

/-- Witness for the amended C3: the stored SUBMITTED status is echoed back. -/
theorem get_status_returns_stored_witness :
    (get_pipeline_status "job-1-1" exDB1).res = .ok (.info
      { job_id := exJob1.id, pipeline_id := toString exJob1.pipeline_id,
        pipeline_name := exPipeline.name, user_id := toString exJob1.user_id,
        status := exJob1.status, started_at := some exJob1.created_at,
        completed_at := if isTerminal exJob1.status then some exJob1.updated_at else none,
        params := exJob1.params, work_dir := exJob1.work_dir,
        output_dir := exJob1.output_dir }) :=
  (get_status_returns_stored_without_gateway "job-1-1" exDB1).2.2 exJob1 exPipeline rfl rfl

/-- C6: for an existing job, both `GetStatus` and `Cancel` deny with
Forbidden exactly when the requester is neither the job's owner nor an
admin. -/
theorem get_cancel_forbidden_iff (loads : String → Option JValue) (nowT : Nat)
    (jid : String) (u : User) (db : DB) (j : Job)
    (h : db.jobs.find? (fun x => x.id == jid) = some j) :
    (isForbiddenErr (get_pipeline_job loads jid u db).res = true ↔
       (j.user_id ≠ u.id ∧ u.role ≠ "admin")) ∧
    (isForbiddenErr (cancel_pipeline_job nowT jid u db).res = true ↔
       (j.user_id ≠ u.id ∧ u.role ≠ "admin")) := by
  have key : ((!(j.user_id == u.id)) && (!(u.role == "admin"))) = true ↔
      (j.user_id ≠ u.id ∧ u.role ≠ "admin") := by
    simp [Bool.and_eq_true, Bool.not_eq_true', beq_eq_false_iff_ne]
  constructor
  · unfold get_pipeline_job
    simp only [h]
    cases hb : ((!(j.user_id == u.id)) && (!(u.role == "admin")))
    · rw [if_neg (by simp [hb])]
      cases hp : db.pipelines.find? (fun p => p.id == j.pipeline_id) <;>
        simp [hp, isForbiddenErr, ← key, hb]
    · rw [if_pos (by simp [hb])]
      simp [isForbiddenErr, ← key, hb]
  · unfold cancel_pipeline_job
    simp only [h]
    cases hb : ((!(j.user_id == u.id)) && (!(u.role == "admin")))
    · rw [if_neg (by simp [hb])]
      by_cases ht : isTerminal j.status = true
      · rw [if_pos ht]
        simp [isForbiddenErr, ← key, hb]
      · rw [if_neg ht]
        unfold cancel_pipeline
        simp only [h]
        rw [if_neg ht]
        simp [isForbiddenErr, ← key, hb]
    · rw [if_pos (by simp [hb])]
      simp [isForbiddenErr, ← key, hb]

/-- Witness for C6: a different non-admin user is denied on both operations. -/
theorem get_cancel_forbidden_iff_witness :
    isForbiddenErr (get_pipeline_job exLoads "job-1-1" exUser2 exDB1).res = true ∧
    isForbiddenErr (cancel_pipeline_job 9 "job-1-1" exUser2 exDB1).res = true :=
  ⟨(get_cancel_forbidden_iff exLoads 9 "job-1-1" exUser2 exDB1 exJob1 rfl).1.mpr
      ⟨by decide, by decide⟩,
   (get_cancel_forbidden_iff exLoads 9 "job-1-1" exUser2 exDB1 exJob1 rfl).2.mpr
      ⟨by decide, by decide⟩⟩

/-- Searching an appended list skips a prefix on which the predicate fails. -/
theorem find_append_right {α : Type} (p : α → Bool) (l1 l2 : List α)
    (h : ∀ x ∈ l1, p x = false) : (l1 ++ l2).find? p = l2.find? p := by
  induction l1 with
  | nil => rfl
  | cons a l ih =>
    have ha : p a = false := h a (List.mem_cons_self a l)
    rw [List.cons_append, List.find?_cons_of_neg _ (by simp [ha])]
    exact ih fun x hx => h x (List.mem_cons_of_mem a hx)

/-- Inversion of a successful submission: the response carries the generated
job id with status SUBMITTED and null `external_id`/`started_at`, the id was
fresh, and exactly the row `newJobRow` was appended to the job table. -/
theorem submit_ok_spec (loads : String → Option JValue) (nowT pid : Nat)
    (ps : JValue) (d : Option String) (u : User) (db : DB) (resp : JobResponse) :
    (submit_pipeline_job loads nowT pid ps d u db).res = .ok resp →
    resp.id = genJobId nowT u.id ∧ resp.status = "SUBMITTED" ∧
    resp.external_id = none ∧ resp.started_at = none ∧
    genJobId nowT u.id ∉ idsOf db ∧
    (submit_pipeline_job loads nowT pid ps d u db).db.jobs
      = db.jobs ++ [newJobRow nowT pid u.id ps d] := by
  unfold submit_pipeline_job run_pipeline
  split
  · intro h; exact absurd h (by simp)
  · rename_i pipeline heq
    have hpid : pipeline.id = pid := by simpa using List.find?_some heq
    rw [hpid]
    cases hany : db.jobs.any (fun j => j.id == genJobId nowT u.id)
    · have hfalse : ∀ x ∈ db.jobs, (x.id == genJobId nowT u.id) = false := by
        intro x hx
        simpa using List.any_eq_false.mp hany x hx
      have hfresh : genJobId nowT u.id ∉ idsOf db := by
        intro hmem
        simp only [idsOf] at hmem
        rcases List.mem_map.mp hmem with ⟨x, hx, hxid⟩
        have hx2 := hfalse x hx
        rw [hxid] at hx2
        simp at hx2
      have hfind : (db.jobs ++ [newJobRow nowT pid u.id ps d]).find?
          (fun j => j.id == genJobId nowT u.id) = some (newJobRow nowT pid u.id ps d) := by
        rw [find_append_right _ _ _ hfalse]
        simp [List.find?, newJobRow]
      simp only [heq, if_pos, Bool.false_eq_true, if_false, hfind]
      cases hsp : submitRespParams loads ps
      · simp only [newJobRow, hsp]
        intro h; exact absurd h (by simp)
      · simp only [newJobRow, hsp]
        intro h
        rw [Except.ok.injEq] at h
        subst h
        exact ⟨rfl, rfl, rfl, rfl, hfresh, by simp [newJobRow]⟩
    · simp only [heq, if_pos]
      intro h; exact absurd h (by simp)

/-- `cancelUpd` never touches the job id. -/
theorem cancelUpd_id (t : Nat) (jid : String) (j : Job) : (cancelUpd t jid j).id = j.id := by
  unfold cancelUpd; split <;> rfl

/-- `cancelUpd` never touches `completed_at`. -/
theorem cancelUpd_completed (t : Nat) (jid : String) (j : Job) :
    (cancelUpd t jid j).completed_at = j.completed_at := by
  unfold cancelUpd; split <;> rfl

/-- `cancelUpd` never touches the owner. -/
theorem cancelUpd_user (t : Nat) (jid : String) (j : Job) :
    (cancelUpd t jid j).user_id = j.user_id := by
  unfold cancelUpd; split <;> rfl

/-- `get_pipeline_job` neither writes to the store nor contacts the executor. -/
theorem getJob_db_eq (loads : String → Option JValue) (jid : String) (u : User) (db : DB) :
    (get_pipeline_job loads jid u db).db = db ∧
    (get_pipeline_job loads jid u db).calls = [] := by
  unfold get_pipeline_job
  split
  · exact ⟨rfl, rfl⟩
  · split
    · exact ⟨rfl, rfl⟩
    · split <;> exact ⟨rfl, rfl⟩

/-- `cancel_pipeline_job` either leaves the store unchanged or rewrites the
job table with `cancelUpd` for a non-terminal target it found. -/
theorem cancel_router_db_cases (t : Nat) (jid : String) (u : User) (db : DB) :
    (cancel_pipeline_job t jid u db).db = db ∨
    ((cancel_pipeline_job t jid u db).db = { db with jobs := db.jobs.map (cancelUpd t jid) } ∧
     ∃ j, db.jobs.find? (fun x => x.id == jid) = some j ∧ isTerminal j.status = false) := by
  unfold cancel_pipeline_job
  split
  · exact Or.inl rfl
  · rename_i j hj
    split
    · exact Or.inl rfl
    · split
      · exact Or.inl rfl
      · rename_i hterm
        unfold cancel_pipeline
        simp only [hj]
        rw [if_neg hterm]
        exact Or.inr ⟨rfl, j, rfl, by simpa using hterm⟩

/-- `submit_pipeline_job` either leaves the store unchanged or appends the
fresh `newJobRow`. -/
theorem submit_db_cases (loads : String → Option JValue) (t pid : Nat) (ps : JValue)
    (d : Option String) (u : User) (db : DB) :
    (submit_pipeline_job loads t pid ps d u db).db = db ∨
    ((submit_pipeline_job loads t pid ps d u db).db
        = { db with jobs := db.jobs ++ [newJobRow t pid u.id ps d] } ∧
     genJobId t u.id ∉ idsOf db) := by
  unfold submit_pipeline_job run_pipeline
  split
  · exact Or.inl rfl
  · rename_i pipeline heq
    have hpid : pipeline.id = pid := by simpa using List.find?_some heq
    rw [hpid]
    cases hany : db.jobs.any (fun j => j.id == genJobId t u.id)
    · have hfresh : genJobId t u.id ∉ idsOf db := by
        intro hmem
        simp only [idsOf] at hmem
        rcases List.mem_map.mp hmem with ⟨x, hx, hxid⟩
        have hx2 := List.any_eq_false.mp hany x hx
        rw [hxid] at hx2
        simp at hx2
      refine Or.inr ⟨?_, hfresh⟩
      simp only [heq, if_pos, Bool.false_eq_true, if_false]
      split
      all_goals try rfl
      all_goals split <;> rfl
    · left
      simp [heq]

/-- No operation ever removes a job id from the store. -/
theorem idsOf_step_mono (loads : String → Option JValue) (db : DB) (op : Op) :
    ∀ i ∈ idsOf db, i ∈ idsOf (step loads db op) := by
  intro i hi
  cases op with
  | submitOp t u pid ps d =>
    rcases submit_db_cases loads t pid ps d u db with h | ⟨h, _⟩
    · simpa [step, h] using hi
    · simp only [step, h, idsOf, List.map_append, List.mem_append]
      exact Or.inl (by simpa [idsOf] using hi)
  | getStatusOp u jid =>
    simpa [step, (getJob_db_eq loads jid u db).1] using hi
  | cancelOp t u jid =>
    rcases cancel_router_db_cases t jid u db with h | ⟨h, _⟩
    · simpa [step, h] using hi
    · simp only [step, h, idsOf, List.map_map]
      have hcomp : ((fun j : Job => j.id) ∘ cancelUpd t jid) = (fun j : Job => j.id) := by
        funext x
        simp [Function.comp, cancelUpd_id]
      rw [hcomp]
      simpa [idsOf] using hi

/-- Job ids survive any sequence of operations. -/
theorem idsOf_runOps_mono (loads : String → Option JValue) (ops : List Op) (db : DB) :
    ∀ i ∈ idsOf db, i ∈ idsOf (runOps loads db ops) := by
  induction ops generalizing db with
  | nil => intro i hi; simpa [runOps] using hi
  | cons op rest ih =>
    intro i hi
    have h1 := idsOf_step_mono loads db op i hi
    simpa [runOps, List.foldl] using ih (step loads db op) i h1

/-- C2 (amended): every successful Submit appends exactly one Job record with
status = SUBMITTED, a work_location containing the job's id, the submitted
parameters, created_at = now and the requester as owner — but `external_ref`
and `started_at` of the record remain null: no Executor Gateway launch
happens in simulation mode, so there is no launch response to store. -/
theorem submit_success_record_fields (loads : String → Option JValue)
    (nowT pid : Nat) (ps : JValue) (d : Option String) (u : User) (db : DB)
    (resp : JobResponse)
    (h : (submit_pipeline_job loads nowT pid ps d u db).res = .ok resp) :
    ∃ jb : Job,
      (submit_pipeline_job loads nowT pid ps d u db).db.jobs = db.jobs ++ [jb] ∧
      jb.id = resp.id ∧ jb.status = "SUBMITTED" ∧ resp.status = "SUBMITTED" ∧
      (∃ a b, jb.work_dir = some (a ++ jb.id ++ b)) ∧
      jb.external_id = none ∧ jb.started_at = none ∧
      resp.external_id = none ∧ resp.started_at = none ∧
      jb.created_at = nowT ∧ jb.user_id = u.id ∧ jb.params = ps := by
  obtain ⟨h1, h2, h3, h4, h5, h6⟩ := submit_ok_spec loads nowT pid ps d u db resp h
  refine ⟨newJobRow nowT pid u.id ps d, h6, ?_, rfl, h2, ?_, rfl, rfl, h3, h4, rfl, rfl, rfl⟩
  · rw [h1]; rfl
  · refine ⟨"s3://" ++ S3_BUCKET ++ "/work/", "", ?_⟩
    simp [newJobRow, workDirOf, String.append_assoc, String.append_empty]

/-- C2 counterexample: a successful submission whose created record (and
response) has `external_ref` null and `started_at` null — the claim's
"external_ref set from the gateway's launch response, started_at = now"
fails on the code. -/
theorem submit_success_no_external_ref :
    (submit_pipeline_job exLoads 1 1 (.jobj []) none exUser exDB).res = .ok exResp1 ∧
    exResp1.external_id = none ∧ exResp1.started_at = none ∧
    ((submit_pipeline_job exLoads 1 1 (.jobj []) none exUser exDB).db.jobs.map
      (fun j => (j.external_id, j.started_at))) = [(none, none)] :=
  ⟨rfl, rfl, rfl, rfl⟩

/-- Witness for the amended C2 at the concrete first example submission. -/
theorem submit_success_record_fields_witness :
    ∃ jb : Job,
      (submit_pipeline_job exLoads 1 1 (.jobj []) none exUser exDB).db.jobs
        = exDB.jobs ++ [jb] ∧
      jb.id = exResp1.id ∧ jb.status = "SUBMITTED" ∧ exResp1.status = "SUBMITTED" ∧
      (∃ a b, jb.work_dir = some (a ++ jb.id ++ b)) ∧
      jb.external_id = none ∧ jb.started_at = none ∧
      exResp1.external_id = none ∧ exResp1.started_at = none ∧
      jb.created_at = 1 ∧ jb.user_id = exUser.id ∧ jb.params = .jobj [] :=
  submit_success_record_fields exLoads 1 1 (.jobj []) none exUser exDB exResp1 rfl

/-- C9: two successful Submits — with any sequence of Submit/GetStatus/Cancel
requests served in between — are assigned distinct job ids: the primary key
forces a fresh id at every successful creation, and ids are never removed
from the table, hence never reused. -/
theorem submit_ids_unique (loads : String → Option JValue)
    (t1 pid1 : Nat) (ps1 : JValue) (d1 : Option String) (u1 : User)
    (ops : List Op) (t2 pid2 : Nat) (ps2 : JValue) (d2 : Option String) (u2 : User)
    (db : DB) (resp1 resp2 : JobResponse)
    (h1 : (submit_pipeline_job loads t1 pid1 ps1 d1 u1 db).res = .ok resp1)
    (h2 : (submit_pipeline_job loads t2 pid2 ps2 d2 u2
            (runOps loads (submit_pipeline_job loads t1 pid1 ps1 d1 u1 db).db ops)).res
          = .ok resp2) :
    resp1.id ≠ resp2.id := by
  obtain ⟨hid1, -, -, -, -, hjobs1⟩ := submit_ok_spec loads t1 pid1 ps1 d1 u1 db resp1 h1
  obtain ⟨hid2, -, -, -, hfresh2, -⟩ := submit_ok_spec loads t2 pid2 ps2 d2 u2 _ resp2 h2
  have hmem1 : resp1.id ∈ idsOf (submit_pipeline_job loads t1 pid1 ps1 d1 u1 db).db := by
    rw [hid1]
    simp [idsOf, hjobs1, newJobRow]
  have hmem2 := idsOf_runOps_mono loads ops _ resp1.id hmem1
  intro hcontra
  rw [hcontra, hid2] at hmem2
  exact hfresh2 hmem2

/-- Witness for C9: two consecutive submissions at clock readings 1 and 2
succeed and receive the distinct ids "job-1-1" and "job-2-1". -/
theorem submit_ids_unique_witness : exResp1.id ≠ exResp2.id :=
  submit_ids_unique exLoads 1 1 (.jobj []) none exUser [] 2 1 (.jobj []) none exUser
    exDB exResp1 exResp2 rfl rfl

/-- C4 (amended): Cancel of an existing job by its owner or an admin: if the
stored status is already terminal it returns that status as a success without
mutating the record; otherwise it returns success with status CANCELLED and
sets every matching record's status to CANCELLED — but it never assigns
`completed_at` (the column is unchanged by every Cancel), so cancelling twice
yields success both times with zero `completed_at` assignments. -/
theorem cancel_idempotent_no_completed_at (t1 t2 : Nat) (jid : String) (u : User)
    (db : DB) (j : Job)
    (hfind : db.jobs.find? (fun x => x.id == jid) = some j)
    (hauth : j.user_id = u.id ∨ u.role = "admin") :
    (isTerminal j.status = true →
       (cancel_pipeline_job t1 jid u db).res
         = .ok { status := j.status,
                 message := "Job is already in terminal state: " ++ j.status } ∧
       (cancel_pipeline_job t1 jid u db).db = db) ∧
    (isTerminal j.status = false →
       (cancel_pipeline_job t1 jid u db).res
         = .ok { status := "CANCELLED", message := "Job cancelled successfully" } ∧
       (∀ x ∈ (cancel_pipeline_job t1 jid u db).db.jobs, x.id = jid → x.status = "CANCELLED")) ∧
    ((cancel_pipeline_job t1 jid u db).db.jobs.map (fun x => x.completed_at)
       = db.jobs.map (fun x => x.completed_at)) ∧
    (∃ r, (cancel_pipeline_job t2 jid u ((cancel_pipeline_job t1 jid u db).db)).res
       = .ok r) ∧
    ((cancel_pipeline_job t2 jid u ((cancel_pipeline_job t1 jid u db).db)).db
       = (cancel_pipeline_job t1 jid u db).db) := by
  have hb : ((!(j.user_id == u.id)) && (!(u.role == "admin"))) = false := by
    rcases hauth with h | h <;> simp [h]
  by_cases ht : isTerminal j.status = true
  · have hr : ∀ t, cancel_pipeline_job t jid u db
        = ⟨.ok { status := j.status,
                 message := "Job is already in terminal state: " ++ j.status }, db, []⟩ := by
      intro t
      unfold cancel_pipeline_job
      simp only [hfind]
      rw [if_neg (by simp [hb]), if_pos ht]
    refine ⟨fun _ => ⟨by rw [hr t1], by rw [hr t1]⟩,
            fun hf => absurd ht (by simp [hf]), by rw [hr t1], ?_, ?_⟩
    · rw [hr t1]
      show ∃ r, (cancel_pipeline_job t2 jid u db).res = .ok r
      exact ⟨_, by rw [hr t2]⟩
    · rw [hr t1]
      show (cancel_pipeline_job t2 jid u db).db = _
      rw [hr t2]
  · have htf : isTerminal j.status = false := by simpa using ht
    have hjid : (j.id == jid) = true := by simpa using List.find?_some hfind
    have hr1 : cancel_pipeline_job t1 jid u db
        = ⟨.ok { status := "CANCELLED", message := "Job cancelled successfully" },
           { db with jobs := db.jobs.map (cancelUpd t1 jid) }, []⟩ := by
      unfold cancel_pipeline_job
      simp only [hfind]
      rw [if_neg (by simp [hb]), if_neg (by simp [htf])]
      unfold cancel_pipeline
      simp only [hfind]
      rw [if_neg (by simp [htf])]
    have hj2 : cancelUpd t1 jid j = { j with status := "CANCELLED", updated_at := t1 } := by
      unfold cancelUpd
      rw [if_pos hjid]
    have hfind2 : (db.jobs.map (cancelUpd t1 jid)).find? (fun x => x.id == jid)
        = some { j with status := "CANCELLED", updated_at := t1 } := by
      rw [List.find?_map]
      have hcomp : ((fun x : Job => x.id == jid) ∘ cancelUpd t1 jid)
          = (fun x : Job => x.id == jid) := by
        funext x
        simp [Function.comp, cancelUpd_id]
      rw [hcomp, hfind]
      simp [hj2]
    have hr2 : cancel_pipeline_job t2 jid u { db with jobs := db.jobs.map (cancelUpd t1 jid) }
        = ⟨.ok { status := "CANCELLED",
                 message := "Job is already in terminal state: " ++ "CANCELLED" },
           { db with jobs := db.jobs.map (cancelUpd t1 jid) }, []⟩ := by
      unfold cancel_pipeline_job
      simp only [hfind2]
      rw [if_neg (by simp [hb]), if_pos (show isTerminal "CANCELLED" = true from rfl)]
    refine ⟨fun habs => absurd habs (by simp [htf]),
            fun _ => ⟨by rw [hr1], ?_⟩, ?_, ?_, ?_⟩
    · intro x hx hxid
      rw [hr1] at hx
      rcases List.mem_map.mp hx with ⟨y, hy, rfl⟩
      unfold cancelUpd
      cases hyid : y.id == jid
      · rw [cancelUpd_id] at hxid
        exact absurd hxid (by simpa using hyid)
      · simp [hyid]
    · rw [hr1]
      show (db.jobs.map (cancelUpd t1 jid)).map (fun x => x.completed_at) = _
      rw [List.map_map]
      exact List.map_congr_left fun x _ => cancelUpd_completed t1 jid x
    · rw [hr1]
      show ∃ r, (cancel_pipeline_job t2 jid u
        { db with jobs := db.jobs.map (cancelUpd t1 jid) }).res = .ok r
      exact ⟨_, by rw [hr2]⟩
    · rw [hr1]
      show (cancel_pipeline_job t2 jid u { db with jobs := db.jobs.map (cancelUpd t1 jid) }).db = _
      rw [hr2]

/-- C4 counterexample: cancelling a freshly submitted job sets status
CANCELLED but leaves `completed_at` null — the claim's
"sets completed_at = now" fails on the code (there is no `completed_at`
assignment anywhere). -/
theorem cancel_leaves_completed_at_null :
    ((cancel_pipeline_job 2 "job-1-1" exUser exDB1).db.jobs.map
      (fun j => (j.status, j.completed_at))) = [("CANCELLED", none)] ∧
    (cancel_pipeline_job 2 "job-1-1" exUser exDB1).res
      = .ok { status := "CANCELLED", message := "Job cancelled successfully" } :=
  ⟨rfl, rfl⟩

/-- Witness for the amended C4: cancelling the example job twice leaves the
`completed_at` column untouched and succeeds the second time as well. -/
theorem cancel_idempotent_no_completed_at_witness :
    ((cancel_pipeline_job 2 "job-1-1" exUser exDB1).db.jobs.map (fun x => x.completed_at)
       = exDB1.jobs.map (fun x => x.completed_at)) ∧
    (∃ r, (cancel_pipeline_job 3 "job-1-1" exUser
            ((cancel_pipeline_job 2 "job-1-1" exUser exDB1).db)).res = .ok r) :=
  ⟨(cancel_idempotent_no_completed_at 2 3 "job-1-1" exUser exDB1 exJob1 rfl
      (Or.inl rfl)).2.2.1,
   (cancel_idempotent_no_completed_at 2 3 "job-1-1" exUser exDB1 exJob1 rfl
      (Or.inl rfl)).2.2.2.1⟩

/-- C5 (amended): from any well-formed store, one served request changes each
stored job's status only along the spec's edges extended with the direct
cancellation edge SUBMITTED → CANCELLED (in fact the code's only transition is
non-terminal → CANCELLED); a job whose status is terminal is left untouched;
well-formedness is preserved; and GetStatus never writes to the store and
never invokes the Executor Gateway, for terminal and non-terminal jobs
alike. -/
theorem status_transitions_monotone (loads : String → Option JValue) (db : DB)
    (op : Op) (hWF : WF db) :
    (∀ n j j', db.jobs.get? n = some j → (step loads db op).jobs.get? n = some j' →
       (j'.status = j.status ∨ amendedEdge j.status j'.status = true) ∧
       (isTerminal j.status = true → j' = j)) ∧
    WF (step loads db op) ∧
    (∀ u jid, (get_pipeline_job loads jid u db).db = db ∧
       (get_pipeline_job loads jid u db).calls = []) := by
  refine ⟨?_, ?_, fun u jid => getJob_db_eq loads jid u db⟩
  · intro n j j' h1 h2
    cases op with
    | submitOp t u pid ps d =>
      rcases submit_db_cases loads t pid ps d u db with h | ⟨h, -⟩
      · simp only [step, h, h1] at h2
        cases h2
        exact ⟨Or.inl rfl, fun _ => rfl⟩
      · have hlt : n < db.jobs.length := by
          rcases List.get?_eq_some.mp h1 with ⟨hl, -⟩
          exact hl
        simp only [step, h] at h2
        rw [List.get?_append hlt, h1] at h2
        cases h2
        exact ⟨Or.inl rfl, fun _ => rfl⟩
    | getStatusOp u jid =>
      simp only [step, (getJob_db_eq loads jid u db).1, h1] at h2
      cases h2
      exact ⟨Or.inl rfl, fun _ => rfl⟩
    | cancelOp t u jid =>
      rcases cancel_router_db_cases t jid u db with h | ⟨h, j0, hj0, ht0⟩
      · simp only [step, h, h1] at h2
        cases h2
        exact ⟨Or.inl rfl, fun _ => rfl⟩
      · simp only [step, h, List.get?_map, h1, Option.map_some'] at h2
        cases h2
        cases hid : j.id == jid
        · constructor
          · exact Or.inl (by simp [cancelUpd, hid])
          · intro _
            simp [cancelUpd, hid]
        · have hjmem : j ∈ db.jobs := List.get?_mem h1
          have hj0mem : j0 ∈ db.jobs := List.mem_of_find?_eq_some hj0
          have heqid : j.id = j0.id := by
            have ha : j.id = jid := by simpa using hid
            have hc : j0.id = jid := by simpa using List.find?_some hj0
            rw [ha, hc]
          have hnodup : (db.jobs.map (fun x => x.id)).Nodup := by
            have := hWF.2
            simpa [idsOf] using this
          have hjj0 : j = j0 := List.inj_on_of_nodup_map hnodup hjmem hj0mem heqid
          have hjt : isTerminal j.status = false := by rw [hjj0]; exact ht0
          constructor
          · right
            have hcanon : j.status ∈ canonicalStatuses := hWF.1 j hjmem
            have hcs : (cancelUpd t jid j).status = "CANCELLED" := by
              simp [cancelUpd, hid]
            rw [hcs]
            simp only [canonicalStatuses, List.mem_cons, List.not_mem_nil, or_false] at hcanon
            rcases hcanon with h5 | h5 | h5 | h5 | h5 <;> rw [h5] <;> rw [h5] at hjt
            · rfl
            · rfl
            · exact absurd hjt (by simp [isTerminal])
            · exact absurd hjt (by simp [isTerminal])
            · exact absurd hjt (by simp [isTerminal])
          · intro habs
            rw [habs] at hjt
            exact absurd hjt (by simp)
  · cases op with
    | submitOp t u pid ps d =>
      rcases submit_db_cases loads t pid ps d u db with h | ⟨h, hfresh⟩
      · simpa [step, h] using hWF
      · simp only [step, h]
        constructor
        · intro x hx
          rcases List.mem_append.mp hx with hx | hx
          · exact hWF.1 x hx
          · rcases List.mem_singleton.mp hx with rfl
            simp [newJobRow, canonicalStatuses]
        · have : idsOf { db with jobs := db.jobs ++ [newJobRow t pid u.id ps d] }
              = idsOf db ++ [genJobId t u.id] := by
            simp [idsOf, newJobRow]
          rw [this]
          rw [List.nodup_append]
          exact ⟨hWF.2, List.nodup_singleton _,
                 fun a ha hb => hfresh (by rcases List.mem_singleton.mp hb with rfl; exact ha)⟩
    | getStatusOp u jid =>
      simpa [step, (getJob_db_eq loads jid u db).1] using hWF
    | cancelOp t u jid =>
      rcases cancel_router_db_cases t jid u db with h | ⟨h, -, -, -⟩
      · simpa [step, h] using hWF
      · simp only [step, h]
        constructor
        · intro x hx
          rcases List.mem_map.mp hx with ⟨y, hy, rfl⟩
          unfold cancelUpd
          split
          · simp [canonicalStatuses]
          · exact hWF.1 y hy
        · have : idsOf { db with jobs := db.jobs.map (cancelUpd t jid) } = idsOf db := by
            simp only [idsOf, List.map_map]
            exact List.map_congr_left fun x _ => cancelUpd_id t jid x
          rw [this]
          exact hWF.2

/-- C5 counterexample: cancelling a SUBMITTED job moves its stored status
directly from SUBMITTED to CANCELLED — a transition that is not among the
claim's edges SUBMITTED → RUNNING → {COMPLETED, FAILED, CANCELLED}. -/
theorem cancel_from_submitted_not_spec_edge :
    ((exDB1.jobs.get? 0).map (fun j => j.status)) = some "SUBMITTED" ∧
    (((step exLoads exDB1 (.cancelOp 2 exUser "job-1-1")).jobs.get? 0).map
      (fun j => j.status)) = some "CANCELLED" ∧
    specEdge "SUBMITTED" "CANCELLED" = false :=
  ⟨rfl, rfl, rfl⟩

/-- Witness for the amended C5: the well-formed one-job store stays
well-formed across a Cancel request, and the concrete transition taken is an
amended edge. -/
theorem status_transitions_monotone_witness :
    WF (step exLoads exDB1 (.cancelOp 2 exUser "job-1-1")) ∧
    ((get_pipeline_job exLoads "job-1-1" exUser exDB1).db = exDB1 ∧
     (get_pipeline_job exLoads "job-1-1" exUser exDB1).calls = []) :=
  ⟨(status_transitions_monotone exLoads exDB1 (.cancelOp 2 exUser "job-1-1")
      ⟨by decide, by decide⟩).2.1,
   (status_transitions_monotone exLoads exDB1 (.cancelOp 2 exUser "job-1-1")
      ⟨by decide, by decide⟩).2.2 exUser "job-1-1"⟩
